import Mathlib

/-!
Verification of the webhook sync engine of this repository.

Shallow embedding of the four source classes:
GithubIntegrationService, GithubWebhookHandler (GithubWebhookHandler.ts,
GithubIntegrationService.ts, GithubTypes.ts), JiraIntegrationService
(JiraIntegrationService.ts) and JiraWebhookHandler (with JiraTypes).

Conventions of the embedding:
- console.log lines tagged [DB] PERSIST are the mocked persistence layer;
  they are modelled as Effect values returned alongside each result, and a
  plain log line produces no Effect.
- Math.random() draws are made explicit as an input argument (the source
  computes Math.floor(Math.random() * 1000), a value in 0..999, modelled by
  taking the argument mod 1000).
- An awaited call that the source wraps in try/catch is modelled through a
  SyncEnv record saying whether that call throws; the source functions
  themselves never throw, so the env with no errors is the literal run.
- Date strings become integer epoch milliseconds (getTime values); the
  fractional-hour arithmetic is carried out in the rationals.
-/

namespace SpringRest

/- ===================== Data model (JiraTypes, GithubTypes) ============== -/

/-- JiraTypes: the status object inside JiraIssue.fields. -/
structure JiraStatus where
  name : String
  id : String
  deriving DecidableEq

/-- JiraTypes: JiraIssue.fields. -/
structure JiraIssueFields where
  summary : String
  status : JiraStatus
  updated : String
  deriving DecidableEq

/-- JiraTypes: JiraIssue. -/
structure JiraIssue where
  id : String
  key : String
  fields : JiraIssueFields
  deriving DecidableEq

/-- JiraTypes: JiraWebhookPayload. webhookEvent is kept as the raw string
discriminator carried by the payload. -/
structure JiraWebhookPayload where
  timestamp : Nat
  webhookEvent : String
  issue : JiraIssue
  deriving DecidableEq

/-- JiraTypes: SyncResult. -/
structure SyncResult where
  status : String
  externalId : String
  internalId : Option String
  error : Option String
  deriving DecidableEq

/-- GithubTypes: the pull_request object of GithubWebhookPayload, with the
created_at and merged_at date strings replaced by their getTime values in
epoch milliseconds. -/
structure GithubPR where
  id : Nat
  number : Nat
  title : String
  userLogin : String
  additions : Nat
  deletions : Nat
  created_at : Int
  merged_at : Option Int
  deriving DecidableEq

/-- GithubTypes: GithubWebhookPayload (commits reduced to their ids, the
only part the source reads besides author names it logs). -/
structure GithubWebhookPayload where
  pull_request : Option GithubPR
  commitIds : List String
  repoFullName : String
  deriving DecidableEq

/-- GithubTypes: GithubPRMetadata, timeToMergeHours as a rational. -/
structure GithubPRMetadata where
  id : Nat
  number : Nat
  title : String
  author : String
  additions : Nat
  deletions : Nat
  reviewCycles : Nat
  createdAt : Int
  mergedAt : Option Int
  timeToMergeHours : ℚ
  deriving DecidableEq

/- ===================== Observable side effects ========================== -/

/-- One observable side effect of a service call: a [DB] PERSIST write of an
entity status (JiraIntegrationService.persistUpdate), a [DB] PERSIST write of
PR metadata (GithubIntegrationService.savePRMetadata), or a push onto
retryQueue (JiraIntegrationService.queueForRetry, whose closure captures the
payload). -/
inductive Effect where
  | persistEntity (id : String) (status : String)
  | persistPR (number : Nat)
  | retryEnqueue (payload : JiraWebhookPayload)
  deriving DecidableEq

/-- Number of persistence writes in an effect trace. -/
def persistWriteCount (effects : List Effect) : Nat :=
  (effects.filter fun e =>
    match e with
    | Effect.persistEntity _ _ => true
    | Effect.persistPR _ => true
    | Effect.retryEnqueue _ => false).length

/-- Number of retry-queue pushes in an effect trace. -/
def retryEnqueueCount (effects : List Effect) : Nat :=
  (effects.filter fun e =>
    match e with
    | Effect.retryEnqueue _ => true
    | _ => false).length

/-- The payloads pushed onto retryQueue by an effect trace, in order. -/
def enqueuedRetries (effects : List Effect) : List JiraWebhookPayload :=
  effects.filterMap fun e =>
    match e with
    | Effect.retryEnqueue p => some p
    | _ => none

/-- The mocked persistence store as an association list from entity id to
status; a persistEntity effect overwrites the entry for its id. -/
def applyEffect (store : List (String × String)) : Effect → List (String × String)
  | Effect.persistEntity id status => (id, status) :: store.filter (fun kv => kv.1 != id)
  | Effect.persistPR _ => store
  | Effect.retryEnqueue _ => store

/-- Run a whole effect trace against the store. -/
def applyEffects (store : List (String × String)) : List Effect → List (String × String)
  | [] => store
  | e :: rest => applyEffects (applyEffect store e) rest

/-- The persisted status of an entity id in the store. -/
def statusOf (store : List (String × String)) (id : String) : Option String :=
  (store.find? fun kv => kv.1 == id).map Prod.snd

/- ===================== JiraIntegrationService =========================== -/

/-- JiraIntegrationService.mapJiraStatusToInternal: statusMap lookup with
fallback UNKNOWN (statusMap[status] || UNKNOWN). -/
def mapJiraStatusToInternal (status : String) : String :=
  if status == "To Do" then "BACKLOG"
  else if status == "In Progress" then "ACTIVE"
  else if status == "Done" then "RELEASED"
  else if status == "Closed" then "RELEASED"
  else "UNKNOWN"

/-- JiraIntegrationService.resolveInternalEntity: the source is a mock DB
lookup returning a string built from a fresh Math.random() draw; the draw is
the explicit first argument. The jiraKey parameter is accepted and ignored,
exactly as in the source body. -/
def resolveInternalEntity (randomDraw : Nat) (jiraKey : String) : String :=
  "SHIP-" ++ toString (randomDraw % 1000)

/-- Outcome of the awaited calls made inside one syncIssue invocation:
resolveOutcome is the result of the awaited resolveInternalEntity call
(ok carries the Math.random * 1000 draw; error is a thrown rejection), and
persistError is some thrown rejection of the awaited persistUpdate call, or
none when it completes. In the literal source neither mock ever throws, so
the literal run is any env with resolveOutcome ok and persistError none. -/
structure SyncEnv where
  resolveOutcome : Except String Nat
  persistError : Option String

/-- JiraIntegrationService.syncIssue: resolve, normalize, persist inside a
try block; on any thrown error, queueForRetry and return RETRY_QUEUED. The
returned trace lists the effects in execution order. -/
def syncIssue (env : SyncEnv) (payload : JiraWebhookPayload) :
    SyncResult × List Effect :=
  match env.resolveOutcome with
  | Except.error e =>
      ({ status := "RETRY_QUEUED", externalId := payload.issue.id,
         internalId := none, error := some e },
       [Effect.retryEnqueue payload])
  | Except.ok draw =>
      let internalId := resolveInternalEntity draw payload.issue.key
      let normalizedStatus := mapJiraStatusToInternal payload.issue.fields.status.name
      match env.persistError with
      | some e =>
          ({ status := "RETRY_QUEUED", externalId := payload.issue.id,
             internalId := none, error := some e },
           [Effect.retryEnqueue payload])
      | none =>
          ({ status := "SUCCESS", externalId := payload.issue.id,
             internalId := some internalId, error := none },
           [Effect.persistEntity internalId normalizedStatus])

/-- JiraIntegrationService.queueForRetry: retryQueue.push of a closure that
re-runs syncIssue on the captured payload; the queue state is the list of
captured payloads. -/
def queueForRetry (queue : List JiraWebhookPayload) (payload : JiraWebhookPayload) :
    List JiraWebhookPayload :=
  queue ++ [payload]

/-- The retryQueue contents after n consecutive attempts of the same payload
in a fixed environment, starting from an empty queue: each attempt runs
syncIssue and appends whatever it enqueues. Nothing in the source ever pops
or completes a queue entry. -/
def retryQueueAfterAttempts (env : SyncEnv) (payload : JiraWebhookPayload) :
    Nat → List JiraWebhookPayload
  | 0 => []
  | n + 1 => retryQueueAfterAttempts env payload n ++ enqueuedRetries (syncIssue env payload).2

/- ===================== JiraWebhookHandler =============================== -/

/-- JiraWebhookHandler.isValidSignature: the source returns the truthiness of
the signature string (!!sig), so any non-empty string passes; no HMAC is
computed and no secret is consulted. -/
def isValidSignature (sig : String) : Bool :=
  sig != ""

/-- JiraWebhookHandler.handleWebhook: 401 when the signature check fails,
otherwise dispatch every payload to syncIssue and map SUCCESS to 200 and
everything else to 202. -/
def handleWebhook (env : SyncEnv) (body : JiraWebhookPayload) (signature : String) :
    Nat × List Effect :=
  if !(isValidSignature signature) then (401, [])
  else
    let result := syncIssue env body
    if result.1.status == "SUCCESS" then (200, result.2)
    else (202, result.2)

/- ===================== GithubIntegrationService ========================= -/

/-- JavaScript Math.round on the exact rational value: floor of x + 1/2. -/
def jsRound (q : ℚ) : Int :=
  ⌊q + 1 / 2⌋

/-- GithubIntegrationService.trackPullRequest: null when the payload has no
pull_request; otherwise compute timeToMerge in hours (0 when merged_at is
absent), build the metadata record with Math.round(timeToMerge * 100) / 100,
persist it through savePRMetadata and return it. The mocked
fetchReviewCycles draw is the explicit first argument. -/
def trackPullRequest (reviewCycles : Nat) (payload : GithubWebhookPayload) :
    Option GithubPRMetadata × List Effect :=
  match payload.pull_request with
  | none => (none, [])
  | some pr =>
      let timeToMerge : ℚ :=
        match pr.merged_at with
        | some m => ((m : ℚ) - (pr.created_at : ℚ)) / (1000 * 60 * 60)
        | none => 0
      let meta : GithubPRMetadata :=
        { id := pr.id
          number := pr.number
          title := pr.title
          author := pr.userLogin
          additions := pr.additions
          deletions := pr.deletions
          reviewCycles := reviewCycles
          createdAt := pr.created_at
          mergedAt := pr.merged_at
          timeToMergeHours := (jsRound (timeToMerge * 100) : ℚ) / 100 }
      (some meta, [Effect.persistPR pr.number])

/-- GithubIntegrationService.monitorCommits: iterates the commits logging
each one; the body carries no [DB] PERSIST call, so the trace is empty. -/
def monitorCommits (payload : GithubWebhookPayload) : List Effect :=
  (payload.commitIds.map fun _ => []).flatten

/- ===================== GithubWebhookHandler ============================= -/

/-- GithubWebhookHandler.verifySignature: the source returns the truthiness
of the signature string (!!sig); the payload argument is accepted and never
read, and no HMAC over the body is computed. -/
def verifySignature (sig : String) (payload : GithubWebhookPayload) : Bool :=
  sig != ""

/-- GithubWebhookHandler.handleEvent: UNAUTHORIZED when the signature check
fails; otherwise route pull_request events to trackPullRequest, push events
to monitorCommits, log-and-ignore every other kind, and return ACCEPTED. -/
def handleEvent (reviewCycles : Nat) (eventType : String) (signature : String)
    (body : GithubWebhookPayload) : String × List Effect :=
  if !(verifySignature signature body) then ("UNAUTHORIZED", [])
  else if eventType == "pull_request" then
    ("ACCEPTED", (trackPullRequest reviewCycles body).2)
  else if eventType == "push" then
    ("ACCEPTED", monitorCommits body)
  else
    ("ACCEPTED", [])

/- ===================== Spec-side definitions ============================ -/

/-- The status table exactly as the spec words it: To Do to BACKLOG,
In Progress to ACTIVE, Done to RELEASED, Closed to RELEASED; labels outside
the table go to UNKNOWN. -/
def specStatusTable : List (String × String) :=
  [("To Do", "BACKLOG"), ("In Progress", "ACTIVE"),
   ("Done", "RELEASED"), ("Closed", "RELEASED")]

/-- Spec-side normalizer: lookup in the static table, UNKNOWN by default. -/
def normalizeSpec (label : String) : String :=
  match specStatusTable.lookup label with
  | some s => s
  | none => "UNKNOWN"

/-- Spec-side rounding to two decimal places: the multiple of 1/100 nearest
to q, halves rounding up. -/
def roundTwoSpec (q : ℚ) : ℚ :=
  (⌊q * 100 + 1 / 2⌋ : ℚ) / 100

/- ===================== Sample concrete inputs =========================== -/

/-- A concrete pull request created at epoch 0 and merged 5.5 hours
(19800000 ms) later. -/
def samplePR : GithubPR :=
  { id := 1, number := 42, title := "Fix flaky sync", userLogin := "octocat",
    additions := 3, deletions := 1, created_at := 0, merged_at := some 19800000 }

/-- A concrete GitHub payload carrying samplePR. -/
def samplePayload : GithubWebhookPayload :=
  { pull_request := some samplePR, commitIds := [], repoFullName := "acme/app" }

/-- A concrete GitHub payload with no pull_request field. -/
def samplePayloadNoPR : GithubWebhookPayload :=
  { pull_request := none, commitIds := ["abc1234"], repoFullName := "acme/app" }

/-- A concrete Jira payload with the given event kind and status label. -/
def sampleJiraPayload (event : String) (statusName : String) : JiraWebhookPayload :=
  { timestamp := 0, webhookEvent := event,
    issue := { id := "10001", key := "SCRUM-1",
               fields := { summary := "Ship it",
                           status := { name := statusName, id := "3" },
                           updated := "2024-01-01" } } }

/-- The literal run of the source mocks: resolve draws 7 and nothing throws. -/
def okEnv : SyncEnv :=
  { resolveOutcome := Except.ok 7, persistError := none }

/-- An environment whose resolve call always throws a transient error. -/
def failEnv : SyncEnv :=
  { resolveOutcome := Except.error "ETIMEDOUT", persistError := none }

/- ===================== Theorems ========================================= -/

/-- Claim C6: mapJiraStatusToInternal is total and pure, agrees with the
static table of the spec on its four labels, and returns UNKNOWN for every
label outside the table. -/
theorem c6_normalize_matches_spec_table :
    ∀ s : String, mapJiraStatusToInternal s = normalizeSpec s := by
  intro s
  simp only [mapJiraStatusToInternal, normalizeSpec, specStatusTable, List.lookup]
  cases h1 : s == "To Do" <;> cases h2 : s == "In Progress" <;>
    cases h3 : s == "Done" <;> cases h4 : s == "Closed" <;> simp_all

/-- Claim C1: refuted by the source. Both signature checkers return the
truthiness of the signature string: verifySignature accepts the signature
string "not-an-hmac-digest" on a concrete body even though it is not the
HMAC-SHA-256 of that body under any secret (an SHA-256 HMAC hex digest has
64 hex characters), it reads no secret, and its result does not depend on
the body at all; isValidSignature behaves the same way. -/
theorem c1_truthy_signature_accepted :
    verifySignature "not-an-hmac-digest" samplePayload = true ∧
      (∀ (sig : String) (b1 b2 : GithubWebhookPayload),
        verifySignature sig b1 = verifySignature sig b2) ∧
      isValidSignature "not-an-hmac-digest" = true :=
  ⟨rfl, fun _ _ _ => rfl, rfl⟩

/-- Claim C2: refuted by the source. resolveInternalEntity is a mock that
builds its result from a fresh random draw and ignores the external key:
two calls for the same key with different draws return different internal
ids (no idempotence), and calls for different keys with the same draw return
the same id (no per-pair mapping exists at all). -/
theorem c2_resolve_is_random_not_idempotent :
    resolveInternalEntity 7 "SCRUM-1" ≠ resolveInternalEntity 8 "SCRUM-1" ∧
      (∀ (draw : Nat) (k1 k2 : String),
        resolveInternalEntity draw k1 = resolveInternalEntity draw k2) :=
  ⟨by decide, fun _ _ _ => rfl⟩

/-- Claim C4: an event whose signature fails verification is answered with
the unauthorized outcome by both handlers, with an empty effect trace: no
retry enqueue and no persistence write ever happens for it. -/
theorem c4_failed_verification_rejected_without_effects
    (reviewCycles : Nat) (eventType ghSig : String) (ghBody : GithubWebhookPayload)
    (env : SyncEnv) (jiraBody : JiraWebhookPayload) (jiraSig : String)
    (hg : verifySignature ghSig ghBody = false)
    (hj : isValidSignature jiraSig = false) :
    handleEvent reviewCycles eventType ghSig ghBody = ("UNAUTHORIZED", []) ∧
      handleWebhook env jiraBody jiraSig = (401, []) := by
  constructor
  · simp [handleEvent, hg]
  · simp [handleWebhook, hj]

/-- Witness for C4 at the empty signature string, the one value the source
checkers reject. -/
theorem c4_failed_verification_rejected_without_effects_witness :
    verifySignature "" samplePayload = false ∧ isValidSignature "" = false ∧
      (handleEvent 3 "pull_request" "" samplePayload = ("UNAUTHORIZED", []) ∧
        handleWebhook okEnv (sampleJiraPayload "jira:issue_updated" "Done") "" =
          (401, [])) :=
  ⟨rfl, rfl,
    c4_failed_verification_rejected_without_effects 3 "pull_request" ""
      samplePayload okEnv (sampleJiraPayload "jira:issue_updated" "Done") ""
      rfl rfl⟩

/-- Claim C3, counterexample: start from a store where entity SHIP-7 is
persisted as ACTIVE and process an issue-updated event whose status label
"Blocked" normalizes to UNKNOWN, in the literal environment (resolve draws
7, nothing throws). The sync persists UNKNOWN over the prior ACTIVE, so the
persisted status does not stay unchanged as the claim states. -/
theorem c3_unknown_overwrites_active :
    mapJiraStatusToInternal "Blocked" = "UNKNOWN" ∧
      statusOf
        (applyEffects [("SHIP-7", "ACTIVE")]
          (syncIssue okEnv (sampleJiraPayload "jira:issue_updated" "Blocked")).2)
        "SHIP-7" = some "UNKNOWN" ∧
      some "UNKNOWN" ≠ some "ACTIVE" := by
  refine ⟨rfl, ?_, by decide⟩
  rfl

/-- Claim C3 as amended: syncIssue has no read-compare-write guard; whenever
resolve succeeds and persist does not throw, it persists exactly the freshly
normalized status of the incoming label for the resolved id, whatever the
store held before — so a label normalizing to UNKNOWN overwrites a
previously persisted non-UNKNOWN status instead of leaving it unchanged. -/
theorem c3_sync_persists_normalized_unconditionally
    (env : SyncEnv) (payload : JiraWebhookPayload)
    (store : List (String × String)) (draw : Nat)
    (hres : env.resolveOutcome = Except.ok draw)
    (hper : env.persistError = none) :
    statusOf (applyEffects store (syncIssue env payload).2)
        (resolveInternalEntity draw payload.issue.key) =
      some (mapJiraStatusToInternal payload.issue.fields.status.name) := by
  simp [syncIssue, hres, hper, applyEffects, applyEffect, statusOf, List.find?]

/-- Witness for the amended C3 at the concrete store holding ACTIVE. -/
theorem c3_sync_persists_normalized_unconditionally_witness :
    okEnv.resolveOutcome = Except.ok 7 ∧ okEnv.persistError = none ∧
      statusOf
        (applyEffects [("SHIP-7", "ACTIVE")]
          (syncIssue okEnv (sampleJiraPayload "jira:issue_updated" "Blocked")).2)
        (resolveInternalEntity 7
          (sampleJiraPayload "jira:issue_updated" "Blocked").issue.key) =
      some (mapJiraStatusToInternal
        (sampleJiraPayload "jira:issue_updated" "Blocked").issue.fields.status.name) :=
  ⟨rfl, rfl,
    c3_sync_persists_normalized_unconditionally okEnv
      (sampleJiraPayload "jira:issue_updated" "Blocked")
      [("SHIP-7", "ACTIVE")] 7 rfl rfl⟩

/-- Claim C5: refuted by the source. The retry layer is a bare
retryQueue.push of a re-sync closure: re-attempting a payload that keeps
failing transiently only appends one more copy of it per attempt. After n
attempts the queue is n copies of the same payload — no attempt count is
tracked, no backoff delay exists, no task is ever removed, and no DEAD
state is ever reached, however far n exceeds any ceiling. -/
theorem c5_retry_queue_only_accumulates :
    ∀ (payload : JiraWebhookPayload) (n : Nat),
      retryQueueAfterAttempts failEnv payload n = List.replicate n payload ∧
        (retryQueueAfterAttempts failEnv payload n).length = n := by
  intro payload n
  induction n with
  | zero => simp [retryQueueAfterAttempts]
  | succ k ih =>
      refine ⟨?_, ?_⟩
      · simp only [retryQueueAfterAttempts, ih.1]
        simp [syncIssue, failEnv, enqueuedRetries, List.replicate_succ']
      · simp only [retryQueueAfterAttempts, ih.1]
        simp [syncIssue, failEnv, enqueuedRetries]

/-- Claim C7: each syncIssue call performs exactly one persistence write and
no retry enqueue when it returns SUCCESS, exactly one retry enqueue and no
persistence write when it returns RETRY_QUEUED, and those two outcomes are
the only ones — never both a final write and an enqueue in one call. -/
theorem c7_one_write_xor_one_enqueue :
    ∀ (env : SyncEnv) (payload : JiraWebhookPayload),
      persistWriteCount (syncIssue env payload).2 =
          (if (syncIssue env payload).1.status = "SUCCESS" then 1 else 0) ∧
        retryEnqueueCount (syncIssue env payload).2 =
          (if (syncIssue env payload).1.status = "RETRY_QUEUED" then 1 else 0) ∧
        ((syncIssue env payload).1.status = "SUCCESS" ∨
          (syncIssue env payload).1.status = "RETRY_QUEUED") := by
  intro env payload
  rcases env with ⟨ro, pe⟩
  cases ro <;> cases pe <;>
    simp [syncIssue, persistWriteCount, retryEnqueueCount]

/-- Claim C8: for a pull-request event carrying created_at and merged_at,
the persisted timeToMergeHours is the elapsed milliseconds converted to
fractional hours and rounded to two decimal places (halves up, as
Math.round does); when merged_at is exactly created_at plus 5.5 hours
(19800000 ms) the stored value is exactly 11/2. -/
theorem c8_time_to_merge_hours (reviewCycles : Nat)
    (payload : GithubWebhookPayload) (pr : GithubPR) (m : Int)
    (hpr : payload.pull_request = some pr)
    (hm : pr.merged_at = some m) :
    ∃ meta : GithubPRMetadata,
      (trackPullRequest reviewCycles payload).1 = some meta ∧
        meta.timeToMergeHours =
          roundTwoSpec (((m : ℚ) - (pr.created_at : ℚ)) / 3600000) ∧
        (m = pr.created_at + 19800000 → meta.timeToMergeHours = 11 / 2) := by
  simp only [trackPullRequest, hpr, hm]
  refine ⟨_, rfl, ?_, ?_⟩
  · show (jsRound ((((m : ℚ) - (pr.created_at : ℚ)) / (1000 * 60 * 60)) * 100) : ℚ) / 100 =
      roundTwoSpec (((m : ℚ) - (pr.created_at : ℚ)) / 3600000)
    rw [roundTwoSpec, jsRound]
    norm_num
  · intro hmc
    subst hmc
    show (jsRound (((((pr.created_at + 19800000 : Int) : ℚ) - (pr.created_at : ℚ)) /
        (1000 * 60 * 60)) * 100) : ℚ) / 100 = 11 / 2
    have e1 : (((pr.created_at + 19800000 : Int) : ℚ) - (pr.created_at : ℚ)) = 19800000 := by
      push_cast
      ring
    rw [e1, jsRound]
    have e2 : ((19800000 : ℚ) / (1000 * 60 * 60)) * 100 + 1 / 2 = 1101 / 2 := by
      norm_num
    rw [e2]
    have e3 : ⌊(1101 / 2 : ℚ)⌋ = 550 := by
      rw [Int.floor_eq_iff]
      constructor <;> norm_num
    rw [e3]
    norm_num

/-- Witness for C8 at the concrete pull request created at epoch 0 and
merged 19800000 ms later. -/
theorem c8_time_to_merge_hours_witness :
    samplePayload.pull_request = some samplePR ∧
      samplePR.merged_at = some 19800000 ∧
      (∃ meta : GithubPRMetadata,
        (trackPullRequest 2 samplePayload).1 = some meta ∧
          meta.timeToMergeHours =
            roundTwoSpec ((((19800000 : Int) : ℚ) - (samplePR.created_at : ℚ)) / 3600000) ∧
          ((19800000 : Int) = samplePR.created_at + 19800000 →
            meta.timeToMergeHours = 11 / 2)) :=
  ⟨rfl, rfl, c8_time_to_merge_hours 2 samplePayload samplePR 19800000 rfl rfl⟩

/-- Claim C9, counterexample: a validly signed Jira webhook with the
unrouted kind jira:issue_deleted is not a persistence no-op. The Jira
handler has no event-kind routing: it dispatches every payload to
syncIssue, which (in the literal no-throw environment) performs one
persistence write, contradicting the zero-writes part of the claim. -/
theorem c9_issue_deleted_still_persists :
    isValidSignature "sha256=abc" = true ∧
      (handleWebhook okEnv (sampleJiraPayload "jira:issue_deleted" "Done")
        "sha256=abc").1 = 200 ∧
      persistWriteCount
        (handleWebhook okEnv (sampleJiraPayload "jira:issue_deleted" "Done")
          "sha256=abc").2 = 1 :=
  ⟨rfl, rfl, rfl⟩

/-- Claim C9 as amended: the GitHub handler alone treats unrecognized kinds
as routing no-ops — a validly signed GitHub event whose kind is neither
pull_request nor push returns ACCEPTED with an empty effect trace — while
the Jira handler performs no kind routing at all: every validly signed Jira
payload, whatever its kind, is dispatched to syncIssue and produces exactly
that call's effects. -/
theorem c9_amended_unrouted_kinds (reviewCycles : Nat)
    (eventType ghSig : String) (ghBody : GithubWebhookPayload)
    (env : SyncEnv) (jiraBody : JiraWebhookPayload) (jiraSig : String)
    (hs : verifySignature ghSig ghBody = true)
    (h1 : eventType ≠ "pull_request") (h2 : eventType ≠ "push")
    (hj : isValidSignature jiraSig = true) :
    handleEvent reviewCycles eventType ghSig ghBody = ("ACCEPTED", []) ∧
      (handleWebhook env jiraBody jiraSig).2 = (syncIssue env jiraBody).2 := by
  constructor
  · simp [handleEvent, hs, h1, h2]
  · cases hstat : (syncIssue env jiraBody).1.status == "SUCCESS" <;>
      simp [handleWebhook, hj, hstat]

/-- Witness for the amended C9 at a concrete unrouted GitHub kind and a
concrete validly signed Jira payload. -/
theorem c9_amended_unrouted_kinds_witness :
    verifySignature "sha256=def" samplePayload = true ∧
      ("issues" : String) ≠ "pull_request" ∧ ("issues" : String) ≠ "push" ∧
      isValidSignature "sha256=abc" = true ∧
      (handleEvent 1 "issues" "sha256=def" samplePayload = ("ACCEPTED", []) ∧
        (handleWebhook okEnv (sampleJiraPayload "jira:issue_created" "To Do")
            "sha256=abc").2 =
          (syncIssue okEnv (sampleJiraPayload "jira:issue_created" "To Do")).2) :=
  ⟨rfl, by decide, by decide, rfl,
    c9_amended_unrouted_kinds 1 "issues" "sha256=def" samplePayload okEnv
      (sampleJiraPayload "jira:issue_created" "To Do") "sha256=abc"
      rfl (by decide) (by decide) rfl⟩

/-- Claim C10: a payload with no pull_request field makes trackPullRequest
return null with no persistence write and no computed metadata. -/
theorem c10_absent_pr_is_noop (reviewCycles : Nat) (payload : GithubWebhookPayload)
    (h : payload.pull_request = none) :
    trackPullRequest reviewCycles payload = (none, []) := by
  simp [trackPullRequest, h]

/-- Witness for C10 at the concrete payload without a pull_request field. -/
theorem c10_absent_pr_is_noop_witness :
    samplePayloadNoPR.pull_request = none ∧
      trackPullRequest 3 samplePayloadNoPR = (none, []) :=
  ⟨rfl, c10_absent_pr_is_noop 3 samplePayloadNoPR rfl⟩

end SpringRest
